import Mathlib

/-!
Verification development for the TextBee Home Assistant integration
(`custom_components/textbee`).  The definitions below are a shallow
embedding of `coordinator.py` and the `send_message` service handler of
`__init__.py`.

Modelling conventions:
* Python dicts (insertion ordered) are association lists; `alookup` finds
  the first binding and `aset` replaces it in place or appends.
* Python objects (`TextBeeDeviceState` instances) live in an explicit heap
  `List (Nat × TextBeeDeviceState)` addressed by `Nat` refs, because the
  poll loop of `_async_update_data` shares the very same state objects
  between `self.data.devices` and its local `new_devices` dict, and
  `_process_incoming_message` mutates `self.data.devices` while the loop
  is still building `new_devices`.
* `x or y` on strings/numbers is modelled by `orS`/`orI` with Python
  truthiness (None, "", 0 are falsy); the chain yields the first truthy
  value, else the last value.
* Numeric vendor fields (signal, battery) are modelled as `Option Int`
  (present numeric value); timestamps used by the auto-reply throttle and
  the pulse timer are seconds as `Nat`.
* `async_call_later(hass, 5.0, _clear_pulse)` is modelled by appending a
  `(fire_time, ref)` pair to a timer list; `hass.async_create_task` of an
  auto-reply is modelled by appending the `(device_id, sender)` pair to a
  task list.  Fallible API calls are `Except String` values supplied as
  parameters.
-/

namespace TextBee

/-- First binding of a key in an association list (Python `d.get(k)`). -/
def alookup {α β : Type} [DecidableEq α] : List (α × β) → α → Option β
  | [], _ => none
  | (k, v) :: rest, key => if key = k then some v else alookup rest key

/-- Set a key in an association list (Python `d[k] = v`): replace the first
binding in place, otherwise append — insertion order is preserved. -/
def aset {α β : Type} [DecidableEq α] : List (α × β) → α → β → List (α × β)
  | [], key, val => [(key, val)]
  | (k, v) :: rest, key, val =>
      if key = k then (key, val) :: rest else (k, v) :: aset rest key val

/-- Python truthiness of an optional string: `None` and `""` are falsy. -/
def strTruthy : Option String → Bool
  | some s => !s.isEmpty
  | none => false

/-- Value of the Python expression `a or b` over optional strings. -/
def orS (a b : Option String) : Option String := if strTruthy a then a else b

/-- Python truthiness of an optional number: `None` and `0` are falsy. -/
def intTruthy : Option Int → Bool
  | some n => n != 0
  | none => false

/-- Value of the Python expression `a or b` over optional numbers. -/
def orI (a b : Option Int) : Option Int := if intTruthy a then a else b

/-- Python `str()` on an optional string: `str(None)` is the string `"None"`. -/
def pyStr : Option String → String
  | some s => s
  | none => "None"

/-- An incoming SMS payload dict, restricted to the keys the coordinator
reads.  `fromNumber` models the `"from"` key (a Lean keyword). -/
structure Msg where
  _id : Option String := none
  id : Option String := none
  smsId : Option String := none
  sender : Option String := none
  fromNumber : Option String := none
  senderNumber : Option String := none
  phoneNumber : Option String := none
  message : Option String := none
  body : Option String := none
  receivedAt : Option String := none
  createdAt : Option String := none
  sentAt : Option String := none
deriving DecidableEq, Repr

/-- A vendor device descriptor dict, restricted to the keys
`_async_update_data` reads.  `_id` models the `"_id"` key. -/
structure DeviceDescriptor where
  id : Option String := none
  _id : Option String := none
  deviceId : Option String := none
  name : Option String := none
  label : Option String := none
  deviceName : Option String := none
  phoneNumber : Option String := none
  phone_number : Option String := none
  msisdn : Option String := none
  phone : Option String := none
  manufacturer : Option String := none
  brand : Option String := none
  oem : Option String := none
  model : Option String := none
  deviceModel : Option String := none
  device_model : Option String := none
  signalBars : Option Int := none
  signal_strength : Option Int := none
  signalStrength : Option Int := none
  signal : Option Int := none
  signal_level : Option Int := none
  batteryLevel : Option Int := none
  battery : Option Int := none
  battery_percentage : Option Int := none
  batteryPct : Option Int := none
  battery_percent : Option Int := none
  registeredAt : Option String := none
  createdAt : Option String := none
  lastSeen : Option String := none
  registered : Option Bool := none
  status : Option String := none
  state : Option String := none
  online : Option Bool := none
deriving DecidableEq, Repr

/-- State snapshot per TextBee device (the `TextBeeDeviceState` dataclass). -/
structure TextBeeDeviceState where
  device_id : String
  name : Option String := none
  phone_number : Option String := none
  manufacturer : Option String := none
  model : Option String := none
  signal_bars : Option Int := none
  signal_value : Option Int := none
  battery_level : Option Int := none
  registered_at : Option String := none
  registered : Option Bool := none
  status : Option String := none
  last_message : Option Msg := none
  last_message_id : Option String := none
  new_message_pulse : Bool := false
  last_error : Option String := none
  sent_count : Nat := 0
  received_count : Nat := 0
  raw_device : Option DeviceDescriptor := none
  last_direction : Option String := none
  last_incoming_from : Option String := none
  last_incoming_text : Option String := none
  last_outgoing_to : Option String := none
  last_outgoing_text : Option String := none
deriving DecidableEq, Repr

/-- A fresh `TextBeeDeviceState(device_id=d)`. -/
def mkDevState (d : String) : TextBeeDeviceState := { device_id := d }

/-- The coordinator's mutable world: the heap of device-state objects, the
`TextBeeCoordinatorData` (`devices` dict mapping device id to the state
object's ref, plus the two account counters), the allocator, the timers
armed via `async_call_later` (pairs `(fire_time, ref)`), and the auto-reply
tasks created via `hass.async_create_task` (pairs `(device_id, sender)`). -/
structure World where
  heap : List (Nat × TextBeeDeviceState) := []
  devices : List (String × Nat) := []
  total_sent : Nat := 0
  total_received : Nat := 0
  nextRef : Nat := 0
  timers : List (Nat × Nat) := []
  tasks : List (String × String) := []
deriving DecidableEq, Repr

def emptyWorld : World := {}

/-- Well-formedness of a world: every device binding points at an allocated
heap cell, and every heap key is below the allocator counter. -/
def World.WF (w : World) : Prop :=
  (∀ p ∈ w.devices, ∃ s, alookup w.heap p.2 = some s) ∧
    ∀ q ∈ w.heap, q.1 < w.nextRef

/-- The `bars` bucketing of a raw numeric signal strength
(`coordinator.py` lines 154-164): `v <= 0 -> 0`, `v < 25 -> 1`,
`v < 50 -> 2`, `v < 75 -> 3`, else `4`. -/
def bucketBars (v : Int) : Int :=
  if v ≤ 0 then 0
  else if v < 25 then 1
  else if v < 50 then 2
  else if v < 75 then 3
  else 4

/-- The raw-signal alias chain of `_async_update_data`:
`dev.get("signal_strength") or dev.get("signalStrength") or
dev.get("signal") or dev.get("signal_level")`. -/
def signalChain (dev : DeviceDescriptor) : Option Int :=
  orI dev.signal_strength (orI dev.signalStrength (orI dev.signal dev.signal_level))

/-- Field merge of one polled device descriptor into a device state
(`_async_update_data` lines 109-198, everything before the message fetch).
`raw_device` is assigned `dev` first, so the
`(state.raw_device or {}).get(...)` terms in the manufacturer/model chains
are the descriptor's own fields again. -/
def mergeDevice (s : TextBeeDeviceState) (dev : DeviceDescriptor) : TextBeeDeviceState :=
  let name := orS dev.name (orS dev.label (orS dev.deviceName s.name))
  let phone_number :=
    orS dev.phoneNumber (orS dev.phone_number (orS dev.msisdn (orS dev.phone s.phone_number)))
  let manufacturer :=
    orS dev.manufacturer (orS dev.brand (orS dev.oem (orS dev.manufacturer s.manufacturer)))
  let model :=
    orS dev.model (orS dev.deviceModel (orS dev.device_model (orS dev.model s.model)))
  let sig : Option Int × Option Int :=
    match dev.signalBars with
    | some n => (some n, s.signal_value)
    | none =>
        match signalChain dev with
        | some v => (some (bucketBars v), some v)
        | none => (s.signal_bars, s.signal_value)
  let battery :=
    orI dev.batteryLevel
      (orI dev.battery (orI dev.battery_percentage (orI dev.batteryPct dev.battery_percent)))
  let battery_level := match battery with | some b => some b | none => s.battery_level
  let registered_at := orS dev.registeredAt (orS dev.createdAt (orS dev.lastSeen s.registered_at))
  let registered :=
    match dev.registered with
    | some b => some b
    | none => if strTruthy registered_at then some true else s.registered
  let status0 := orS dev.status dev.state
  let status1 :=
    if strTruthy status0 then status0
    else
      match dev.online with
      | some b => some (if b then "online" else "offline")
      | none => status0
  let status := if strTruthy status1 then status1 else orS s.status (some "online")
  { s with
    raw_device := some dev
    name := name
    phone_number := phone_number
    manufacturer := manufacturer
    model := model
    signal_bars := sig.1
    signal_value := sig.2
    battery_level := battery_level
    registered_at := registered_at
    registered := registered
    status := status
    last_error := none }

/-- The `_ts` sort key: `m.get("receivedAt") or m.get("createdAt") or
m.get("sentAt") or ""`. -/
def tsOf (m : Msg) : String :=
  (orS (orS m.receivedAt (orS m.createdAt m.sentAt)) (some "")).getD ""

/-- `sorted(messages, key=_ts, reverse=True)[0]` for a non-empty list:
the first element with the maximal (string-compared) timestamp, by
stability of Python's sort. -/
def latestMsg : List Msg → Option Msg
  | [] => none
  | m :: ms => some (ms.foldl (fun best x => if tsOf best < tsOf x then x else best) m)

/-- Sender extraction of `_process_incoming_message`:
`msg.get("sender") or msg.get("from") or msg.get("senderNumber") or
msg.get("phoneNumber")`. -/
def msgSender (m : Msg) : Option String :=
  orS m.sender (orS m.fromNumber (orS m.senderNumber m.phoneNumber))

/-- Body extraction: `msg.get("message") or msg.get("body")`. -/
def msgText (m : Msg) : Option String := orS m.message m.body

/-- The pure state mutation performed by `_process_incoming_message` on the
target device-state object (lines 262-290). -/
def ingestState (ds : TextBeeDeviceState) (msg : Msg) (sms_id : Option String) :
    TextBeeDeviceState :=
  { ds with
    last_message := some msg
    last_message_id := orS sms_id (orS msg._id (orS msg.id (orS msg.smsId ds.last_message_id)))
    last_direction := some "incoming"
    last_incoming_from := msgSender msg
    last_incoming_text := msgText msg
    received_count := ds.received_count + 1
    new_message_pulse := true
    status := orS ds.status (some "online")
    last_error := none }

/-- The unknown-device remap of `_process_incoming_message` (lines 251-256)
and `record_sent_sms` (lines 344-345): an id with no record is replaced by
the first-inserted known device id, when any device exists. -/
def remapDeviceId (w : World) (device_id : String) : String :=
  match alookup w.devices device_id, w.devices with
  | none, (k, _) :: _ => k
  | _, _ => device_id

/-- Lazy record creation (`self.data.devices[device_id] =
TextBeeDeviceState(device_id=device_id)`): allocate a fresh state object
and bind the id to it. -/
def ensureDevice (w : World) (device_id : String) : World :=
  match alookup w.devices device_id with
  | some _ => w
  | none =>
      { w with
        heap := w.heap ++ [(w.nextRef, mkDevState device_id)]
        devices := w.devices ++ [(device_id, w.nextRef)]
        nextRef := w.nextRef + 1 }

/-- Body of `_process_incoming_message` after the unknown-device remap:
create the record lazily, apply `ingestState` to the target object, bump
`total_received`, arm the 5-second pulse-clear timer on the target object,
and create the auto-reply task when a sender was resolved. -/
def processCore (w0 : World) (device_id : String) (msg : Msg) (sms_id : Option String)
    (now : Nat) : World :=
  let w := ensureDevice w0 device_id
  match alookup w.devices device_id with
  | none => w
  | some r =>
      match alookup w.heap r with
      | none => w
      | some ds =>
          let sender := msgSender msg
          let w :=
            { w with
              heap := aset w.heap r (ingestState ds msg sms_id)
              total_received := w.total_received + 1
              timers := w.timers ++ [(now + 5, r)] }
          if strTruthy sender then
            { w with tasks := w.tasks ++ [(device_id, (sender.getD ""))] }
          else w

/-- `_process_incoming_message(device_id, msg, sms_id)` at time `now`:
remap unknown ids to the first-inserted device, then run `processCore`. -/
def processIncoming (w0 : World) (device_id0 : String) (msg : Msg) (sms_id : Option String)
    (now : Nat) : World :=
  processCore w0 (remapDeviceId w0 device_id0) msg sms_id now

/-- Device-id extraction of the poll loop:
`str(dev.get("id") or dev.get("_id") or dev.get("deviceId"))`. -/
def devKey (dev : DeviceDescriptor) : String :=
  pyStr (orS dev.id (orS dev._id dev.deviceId))

/-- `state = new_devices.get(dev_id) or TextBeeDeviceState(device_id=dev_id)`:
reuse the object bound in `new_devices`, else allocate a fresh one (not yet
bound anywhere). -/
def resolvePollRef (w : World) (nd : List (String × Nat)) (dev_id : String) : World × Nat :=
  match alookup nd dev_id with
  | some r => (w, r)
  | none =>
      let w1 : World :=
        { w with
          heap := w.heap ++ [(w.nextRef, mkDevState dev_id)]
          nextRef := w.nextRef + 1 }
      (w1, w.nextRef)

/-- One iteration of the device loop of `_async_update_data` (lines
101-236), threading the coordinator world and the loop-local `new_devices`
dict.  The per-device message fetch is the `fetch` parameter. -/
def pollDevice (fetch : String → Except String (List Msg)) (now : Nat)
    (acc : World × List (String × Nat)) (dev : DeviceDescriptor) :
    World × List (String × Nat) :=
  let w := acc.1
  let nd := acc.2
  let dev_id := devKey dev
  if dev_id = "" then acc
  else
    let wr := resolvePollRef w nd dev_id
    let w := wr.1
    let r := wr.2
    let ds0 := match alookup w.heap r with | some s => s | none => mkDevState dev_id
    let ds := mergeDevice ds0 dev
    let w := { w with heap := aset w.heap r ds }
    match fetch dev_id with
    | Except.error e =>
        ({ w with heap := aset w.heap r { ds with last_error := some e } }, aset nd dev_id r)
    | Except.ok messages =>
        let w :=
          match latestMsg messages with
          | none => w
          | some latest =>
              let sms_id := orS latest._id (orS latest.id latest.smsId)
              if strTruthy sms_id ∧ sms_id ≠ ds.last_message_id then
                processIncoming w dev_id latest sms_id now
              else
                { w with heap := aset w.heap r { ds with last_message := some latest } }
        (w, aset nd dev_id r)

/-- `_async_update_data`: abort on device-list failure, otherwise run the
device loop starting from a shallow copy of `self.data.devices` and
finally replace `self.data.devices` with `new_devices`. -/
def asyncUpdateData (w : World) (devicesResult : Except String (List DeviceDescriptor))
    (fetch : String → Except String (List Msg)) (now : Nat) : Except String World :=
  match devicesResult with
  | Except.error e => Except.error e
  | Except.ok devices_raw =>
      let step := List.foldl (pollDevice fetch now) (w, w.devices) devices_raw
      Except.ok { step.1 with devices := step.2 }

/-- One scheduler tick: `UpdateFailed` keeps the previous data and reports
the error to the scheduler; success installs the new data. -/
def pollTick (w : World) (devicesResult : Except String (List DeviceDescriptor))
    (fetch : String → Except String (List Msg)) (now : Nat) : World × Option String :=
  match asyncUpdateData w devicesResult fetch now with
  | Except.error e => (w, some e)
  | Except.ok w1 => (w1, none)

/-- A webhook payload dict: the device-id candidate keys, the optional
`data` sub-dict, the `smsId` key, and `selfMsg` — the message-field view
of the payload itself, used when no `data` dict is present. -/
structure Payload where
  deviceId : Option String := none
  device_id : Option String := none
  device : Option String := none
  gatewayId : Option String := none
  data : Option Msg := none
  smsId : Option String := none
  selfMsg : Msg := {}
deriving DecidableEq, Repr

/-- Webhook device-id resolution: `str(payload.get("deviceId") or
payload.get("device_id") or payload.get("device") or
payload.get("gatewayId") or "")`. -/
def webhookDevId (p : Payload) : String :=
  pyStr (orS (orS p.deviceId (orS p.device_id (orS p.device p.gatewayId))) (some ""))

/-- `msg = payload.get("data") if isinstance(payload.get("data"), dict)
else payload`. -/
def webhookMsg (p : Payload) : Msg :=
  match p.data with
  | some m => m
  | none => p.selfMsg

/-- `sms_id = (msg.get("_id") if isinstance(msg, dict) else None) or
payload.get("smsId")`. -/
def webhookSmsId (p : Payload) : Option String :=
  orS (webhookMsg p)._id p.smsId

/-- `handle_incoming_webhook`: drop when no device id resolves, else route
through `_process_incoming_message`. -/
def handleIncomingWebhook (w : World) (p : Payload) (now : Nat) : World :=
  let dev_id := webhookDevId p
  if dev_id = "" then w
  else processIncoming w dev_id (webhookMsg p) (webhookSmsId p) now

/-- `record_sent_sms(device_id, recipients, message)`: remap/create like the
incoming path, then bump `sent_count` and `total_sent` and record the
outgoing direction, recipients and text. -/
def record_sent_sms (w0 : World) (device_id0 : String) (recipients : List String)
    (message : Option String) : World :=
  let device_id := remapDeviceId w0 device_id0
  let w := ensureDevice w0 device_id
  match alookup w.devices device_id with
  | none => w
  | some r =>
      match alookup w.heap r with
      | none => w
      | some ds =>
          let ds :=
            { ds with
              sent_count := ds.sent_count + 1
              last_direction := some "outgoing"
              last_outgoing_to :=
                if recipients ≠ [] then some (String.intercalate ", " recipients)
                else ds.last_outgoing_to
              last_outgoing_text :=
                match message with
                | some m => some m
                | none => ds.last_outgoing_text }
          { w with heap := aset w.heap r ds, total_sent := w.total_sent + 1 }

/-- The send path of `_async_handle_send_message` (`__init__.py` lines
156-197) after device-id resolution and recipient normalisation: empty
recipients abort; a gateway failure is logged and returns without
bookkeeping; only a successful send is recorded via `record_sent_sms`. -/
def handleSendMessage (w : World) (device_id : String) (recipients : List String)
    (message : String) (sendOk : Bool) : World :=
  if recipients = [] then w
  else if sendOk then record_sent_sms w device_id recipients (some message)
  else w

/-- The coordinator's auto-reply configuration and throttle state
(`_auto_reply_enabled`, `_auto_reply_message`, `_auto_reply_last`). -/
structure AutoReplyState where
  enabled : List (String × Bool) := []
  message : List (String × String) := []
  last : List (String × List (String × Nat)) := []
deriving DecidableEq, Repr

/-- Last auto-reply timestamp recorded for a `(device, sender)` pair. -/
def arLookup (ar : AutoReplyState) (device_id sender : String) : Option Nat :=
  (alookup ar.last device_id).bind (fun per => alookup per sender)

/-- The auto-reply throttle window: `timedelta(hours=1)` in seconds. -/
def autoReplyWindow : Nat := 3600

/-- Python `str.strip()`: drop leading and trailing whitespace. -/
def pyStrip (s : String) : String :=
  ⟨((s.data.dropWhile Char.isWhitespace).reverse.dropWhile Char.isWhitespace).reverse⟩

/-- `_async_maybe_autoreply(device_id, sender)` at time `now`; `sendOk`
is the outcome of the awaited `async_send_sms` call.  Returns the new
throttle state, the new world, and whether a reply was sent. -/
def maybeAutoreply (ar : AutoReplyState) (w : World) (device_id sender : String) (now : Nat)
    (sendOk : Bool) : AutoReplyState × World × Bool :=
  if (alookup ar.enabled device_id).getD false = false then (ar, w, false)
  else
    let message := (alookup ar.message device_id).getD ""
    if pyStrip message = "" then (ar, w, false)
    else
      let per := (alookup ar.last device_id).getD []
      let ar1 : AutoReplyState := { ar with last := aset ar.last device_id per }
      let blocked :=
        match alookup per sender with
        | some lastT => decide (now < lastT + autoReplyWindow)
        | none => false
      if blocked then (ar1, w, false)
      else if sendOk then
        ({ ar1 with last := aset ar1.last device_id (aset per sender now) },
         record_sent_sms w device_id [sender] (some message), true)
      else (ar1, w, false)

/-- Firing the delayed `_clear_pulse` callback armed for a state object:
clear `new_message_pulse` on that object (and republish the snapshot). -/
def fireTimer (w : World) (r : Nat) : World :=
  match alookup w.heap r with
  | none => w
  | some ds => { w with heap := aset w.heap r { ds with new_message_pulse := false } }

/-- Record equality up to the `last_error` field. -/
def eqExceptErr (a b : TextBeeDeviceState) : Prop :=
  { a with last_error := none } = { b with last_error := none }

/-- Heap-cell relation for the failure-isolation proof: equal keys, values
equal except that the cell at key `r` may differ in `last_error`. -/
def cellRel (r : Nat) (p q : Nat × TextBeeDeviceState) : Prop :=
  p.1 = q.1 ∧ (p.1 = r → eqExceptErr p.2 q.2) ∧ (p.1 ≠ r → p.2 = q.2)

/-- Two heaps are equal except possibly in the `last_error` of cells keyed
`r`. -/
def heapRel (r : Nat) (h1 h2 : List (Nat × TextBeeDeviceState)) : Prop :=
  List.Forall₂ (cellRel r) h1 h2

/-- Two worlds are equal except possibly in the `last_error` stored at heap
key `r`. -/
structure WorldRel (r : Nat) (w1 w2 : World) : Prop where
  devices : w1.devices = w2.devices
  total_sent : w1.total_sent = w2.total_sent
  total_received : w1.total_received = w2.total_received
  nextRef : w1.nextRef = w2.nextRef
  timers : w1.timers = w2.timers
  tasks : w1.tasks = w2.tasks
  heap : heapRel r w1.heap w2.heap

/-- The record currently stored for a device id. -/
def devRecord (w : World) (k : String) : Option TextBeeDeviceState :=
  (alookup w.devices k).bind (alookup w.heap)

/-- The bucketing thresholds exactly as the claim states them
(`v<0→0, v<25→1, v<50→2, v<75→3, else→4`), for comparison with the
source's `bucketBars`. -/
def claimBucketC5 (v : Int) : Int :=
  if v < 0 then 0
  else if v < 25 then 1
  else if v < 50 then 2
  else if v < 75 then 3
  else 4

/-- The message of the spec's concrete case:
`{id:"m1", sender:"+1555", message:"hi", receivedAt:"2024-01-01T00:00:00Z"}`. -/
def msgM1 : Msg :=
  { id := some "m1", sender := some "+1555", message := some "hi",
    receivedAt := some "2024-01-01T00:00:00Z" }

/-- Descriptor of device `d1`. -/
def devD1 : DeviceDescriptor := { id := some "d1" }

/-- Webhook payload delivering `msgM1` for device `d1`. -/
def payloadM1 : Payload := { deviceId := some "d1", data := some msgM1 }

/-- Message fetch returning `[msgM1]` for every device. -/
def fetchM1 : String → Except String (List Msg) := fun _ => Except.ok [msgM1]

/-- Message fetch returning no messages. -/
def fetchEmpty : String → Except String (List Msg) := fun _ => Except.ok []

/-- C2 failing input: the very first poll sees the unknown device `d1`
together with its message `m1`. -/
def c2World : World := (pollTick emptyWorld (Except.ok [devD1]) fetchM1 0).1

/-- C1 failing input: `m1` arrives by webhook (creating `d1`), the next
poll returns the same `m1` (deduplicated), then the webhook redelivers
`m1`. -/
def c1World : World :=
  let wa := handleIncomingWebhook emptyWorld payloadM1 0
  let wb := (pollTick wa (Except.ok [devD1]) fetchM1 10).1
  handleIncomingWebhook wb payloadM1 20

/-- C5 counterexample input: a descriptor carrying only a raw signal value
of `0` (under the `signal_level` alias, where `0` survives the `or` chain). -/
def devSignalZero : DeviceDescriptor := { signal_level := some 0 }

/-- C6 witness devices. -/
def devA : DeviceDescriptor := { id := some "a" }

def devB : DeviceDescriptor := { id := some "b" }

/-- C6 witness fetch: device `a` fails, device `b` succeeds. -/
def c6FetchFail : String → Except String (List Msg) :=
  fun k => if k = "a" then Except.error "boom" else Except.ok []

/-- C6 witness fetch with the failure removed. -/
def c6FetchOk : String → Except String (List Msg) :=
  fun k => if k = "a" then Except.ok [] else Except.ok []

end TextBee

namespace TextBee

/-! Association-list lemmas. -/

theorem alookup_aset_self {α β : Type} [DecidableEq α] (l : List (α × β)) (k : α) (v : β) :
    alookup (aset l k v) k = some v := by
  induction l with
  | nil => simp [aset, alookup]
  | cons p rest ih =>
      by_cases h : k = p.1
      · simp [aset, alookup, h]
      · simp [aset, alookup, h, ih]

theorem alookup_aset_ne {α β : Type} [DecidableEq α] (l : List (α × β)) (k k' : α) (v : β)
    (h : k' ≠ k) : alookup (aset l k v) k' = alookup l k' := by
  induction l with
  | nil => simp [aset, alookup, h]
  | cons p rest ih =>
      by_cases hk : k = p.1
      · subst hk; simp [aset, alookup, h]
      · by_cases hk' : k' = p.1
        · simp [aset, alookup, hk, hk']
        · simp [aset, alookup, hk, hk', ih]

theorem aset_lookup_self {α β : Type} [DecidableEq α] (l : List (α × β)) (k : α) (v : β)
    (h : alookup l k = some v) : aset l k v = l := by
  induction l with
  | nil => simp [alookup] at h
  | cons p rest ih =>
      obtain ⟨k1, v1⟩ := p
      by_cases hk : k = k1
      · subst hk
        simp [alookup] at h
        simp [aset, h]
      · simp [alookup, hk] at h
        simp [aset, hk, ih h]

theorem aset_aset {α β : Type} [DecidableEq α] (l : List (α × β)) (k : α) (a b : β) :
    aset (aset l k a) k b = aset l k b := by
  induction l with
  | nil => simp [aset]
  | cons p rest ih =>
      by_cases hk : k = p.1
      · simp [aset, hk]
      · simp [aset, hk, ih]

theorem alookup_append_of_none {α β : Type} [DecidableEq α] (l l2 : List (α × β)) (k : α)
    (h : alookup l k = none) : alookup (l ++ l2) k = alookup l2 k := by
  induction l with
  | nil => simp
  | cons p rest ih =>
      by_cases hk : k = p.1
      · simp [alookup, hk] at h
      · simp [alookup, hk] at h ⊢
        exact ih h

theorem alookup_append_of_some {α β : Type} [DecidableEq α] (l l2 : List (α × β)) (k : α) (v : β)
    (h : alookup l k = some v) : alookup (l ++ l2) k = some v := by
  induction l with
  | nil => simp [alookup] at h
  | cons p rest ih =>
      by_cases hk : k = p.1
      · simp [alookup, hk] at h ⊢; exact h
      · simp [alookup, hk] at h ⊢
        exact ih h

/-- C7: when the device-list fetch of a poll tick fails, the whole cycle is
aborted atomically: the failure is reported to the scheduler and the entire
store (all device records, both account counters, and everything else in
the world) is exactly what it was before the tick. -/
theorem textbee_C7_device_list_failure_aborts (w : World)
    (fetch : String → Except String (List Msg)) (e : String) (now : Nat) :
    pollTick w (Except.error e) fetch now = (w, some e) := rfl

/-- C1: the code violates exactly-once dedup across the two ingestion
paths.  Failing input: message `m1` for device `d1` is fed via webhook,
then a poll returns the same `m1` (this one is deduplicated), then the
webhook redelivers `m1`.  `handle_incoming_webhook` never compares the
message id against `last_message_id`, so the single message id `m1` ends
with `received_count = 2` and `total_received = 2` where the claim demands
exactly one increment. -/
theorem textbee_C1_webhook_redelivery_double_count :
    alookup c1World.devices "d1" = some 0 ∧
    (alookup c1World.heap 0).map TextBeeDeviceState.received_count = some 2 ∧
    c1World.total_received = 2 := by
  refine ⟨rfl, rfl, rfl⟩

/-- C2: the concrete case of the claim fails on the code.  Failing input:
the very first poll discovers the unknown device `d1` together with its
message `m1`.  `_process_incoming_message` then writes the message side
effects into a record it freshly inserts into `self.data.devices`, while
the poll loop keeps its own separate merged state object and finally
overwrites `self.data.devices` with `new_devices` — discarding the
ingested record.  The surviving `d1` record has `received_count = 0`,
`last_incoming_text = None` and `new_message_pulse = False` (the claim
demands 1 / "hi" / True); only the account total was incremented. -/
theorem textbee_C2_first_poll_discards_ingestion :
    alookup c2World.devices "d1" = some 0 ∧
    (alookup c2World.heap 0).map TextBeeDeviceState.received_count = some 0 ∧
    (alookup c2World.heap 0).map TextBeeDeviceState.last_incoming_text = some none ∧
    (alookup c2World.heap 0).map TextBeeDeviceState.new_message_pulse = some false ∧
    (alookup c2World.heap 0).map TextBeeDeviceState.last_message_id = some none ∧
    c2World.total_received = 1 := by
  refine ⟨rfl, rfl, rfl, rfl, rfl, rfl⟩

/-- C5 counterexample: a raw numeric strength of `0` (reachable through the
`signal_level` alias) is bucketed by the source's `v <= 0` test to `0`
bars, while the claim's thresholds (`v<0→0, v<25→1, ...`) give `1` bar. -/
theorem textbee_C5_counterexample :
    signalChain devSignalZero = some 0 ∧
    (mergeDevice (mkDevState "d1") devSignalZero).signal_bars = some 0 ∧
    claimBucketC5 0 = 1 ∧
    (mergeDevice (mkDevState "d1") devSignalZero).signal_bars ≠ some (claimBucketC5 0) := by
  refine ⟨rfl, rfl, rfl, by decide⟩

/-- C5 (amended): during poll merge, a discrete `signalBars` value is used
directly as `signal_bars`; otherwise, when the raw-strength alias chain
yields a numeric `v`, `signal_bars` is bucketed by the fixed thresholds
`v ≤ 0 → 0`, `v < 25 → 1`, `v < 50 → 2`, `v < 75 → 3`, else `4` (the claim
said `v < 0 → 0`), and the raw value `v` is retained in `signal_value`. -/
theorem textbee_C5_signal_merge (s : TextBeeDeviceState) (dev : DeviceDescriptor) :
    (∀ b, dev.signalBars = some b → (mergeDevice s dev).signal_bars = some b) ∧
    (dev.signalBars = none →
      ∀ v, signalChain dev = some v →
        (mergeDevice s dev).signal_bars = some (bucketBars v) ∧
        (mergeDevice s dev).signal_value = some v) := by
  constructor
  · intro b hb
    simp [mergeDevice, hb]
  · intro hb v hv
    simp [mergeDevice, hb, hv]

theorem textbee_C5_signal_merge_witness :
    (mergeDevice (mkDevState "x") { signalBars := some 3 }).signal_bars = some 3 ∧
    ((mergeDevice (mkDevState "x") devSignalZero).signal_bars = some (bucketBars 0) ∧
      (mergeDevice (mkDevState "x") devSignalZero).signal_value = some 0) :=
  ⟨(textbee_C5_signal_merge (mkDevState "x") { signalBars := some 3 }).1 3 rfl,
   (textbee_C5_signal_merge (mkDevState "x") devSignalZero).2 rfl 0 rfl⟩

end TextBee

namespace TextBee

theorem alookup_mem {α β : Type} [DecidableEq α] {l : List (α × β)} {k : α} {v : β}
    (h : alookup l k = some v) : (k, v) ∈ l := by
  induction l with
  | nil => simp [alookup] at h
  | cons p rest ih =>
      obtain ⟨k1, v1⟩ := p
      by_cases hk : k = k1
      · subst hk
        simp [alookup] at h
        simp [h]
      · simp [alookup, hk] at h
        simp [ih h]

theorem alookup_eq_none {α β : Type} [DecidableEq α] {l : List (α × β)} {k : α}
    (h : ∀ p ∈ l, p.1 ≠ k) : alookup l k = none := by
  induction l with
  | nil => rfl
  | cons p rest ih =>
      have hp : p.1 ≠ k := h p (List.mem_cons_self _ _)
      have hk : ¬ (k = p.1) := fun hh => hp hh.symm
      simp only [alookup, hk, if_false]
      exact ih fun q hq => h q (List.mem_cons_of_mem _ hq)

/-- A known device id is not remapped. -/
theorem remap_of_known {w : World} {d : String} {r : Nat}
    (hd : alookup w.devices d = some r) : remapDeviceId w d = d := by
  unfold remapDeviceId
  rw [hd]

/-- An unknown device id is remapped to the first-inserted device. -/
theorem remap_of_unknown {w : World} {d k0 : String} {r0 : Nat} {rest : List (String × Nat)}
    (hd : alookup w.devices d = none) (hdev : w.devices = (k0, r0) :: rest) :
    remapDeviceId w d = k0 := by
  unfold remapDeviceId
  rw [hd, hdev]

/-- With no devices at all the id is kept. -/
theorem remap_of_empty {w : World} {d : String} (hdev : w.devices = []) :
    remapDeviceId w d = d := by
  unfold remapDeviceId
  rw [hdev]
  cases h : alookup w.devices d <;> rfl

/-- Effect of `processCore` on a device id that already has a record. -/
theorem processCore_known {w : World} {d : String} {r : Nat} {s : TextBeeDeviceState}
    (m : Msg) (sid : Option String) (now : Nat)
    (hd : alookup w.devices d = some r) (hs : alookup w.heap r = some s) :
    (processCore w d m sid now).devices = w.devices ∧
    (processCore w d m sid now).heap = aset w.heap r (ingestState s m sid) ∧
    (processCore w d m sid now).total_received = w.total_received + 1 ∧
    (processCore w d m sid now).total_sent = w.total_sent ∧
    (processCore w d m sid now).nextRef = w.nextRef ∧
    (processCore w d m sid now).timers = w.timers ++ [(now + 5, r)] := by
  have hens : ensureDevice w d = w := by unfold ensureDevice; rw [hd]
  unfold processCore
  rw [hens]
  simp only [hd, hs]
  by_cases hsn : strTruthy (msgSender m) <;> simp [hsn]

end TextBee

namespace TextBee

theorem aset_append_fresh {α β : Type} [DecidableEq α] (l : List (α × β)) (k : α) (v v' : β)
    (h : alookup l k = none) : aset (l ++ [(k, v)]) k v' = l ++ [(k, v')] := by
  induction l with
  | nil => simp [aset]
  | cons p rest ih =>
      obtain ⟨k1, v1⟩ := p
      by_cases hk : k = k1
      · simp [alookup, hk] at h
      · simp [alookup, hk] at h
        simp [aset, hk, ih h]

/-- Effect of `processCore` on a device id with no record yet, in a world
with a fresh allocator. -/
theorem processCore_fresh {w : World} {d : String}
    (m : Msg) (sid : Option String) (now : Nat)
    (hd : alookup w.devices d = none) (hfresh : ∀ q ∈ w.heap, q.1 < w.nextRef) :
    (processCore w d m sid now).devices = w.devices ++ [(d, w.nextRef)] ∧
    (processCore w d m sid now).heap =
      w.heap ++ [(w.nextRef, ingestState (mkDevState d) m sid)] ∧
    (processCore w d m sid now).total_received = w.total_received + 1 ∧
    (processCore w d m sid now).total_sent = w.total_sent ∧
    (processCore w d m sid now).nextRef = w.nextRef + 1 ∧
    (processCore w d m sid now).timers = w.timers ++ [(now + 5, w.nextRef)] := by
  have h1 : alookup (w.devices ++ [(d, w.nextRef)]) d = some w.nextRef := by
    rw [alookup_append_of_none _ _ _ hd]; simp [alookup]
  have hheapnone : alookup w.heap w.nextRef = none :=
    alookup_eq_none fun q hq => Nat.ne_of_lt (hfresh q hq)
  have h2 : alookup (w.heap ++ [(w.nextRef, mkDevState d)]) w.nextRef = some (mkDevState d) := by
    rw [alookup_append_of_none _ _ _ hheapnone]; simp [alookup]
  have h3 : aset (w.heap ++ [(w.nextRef, mkDevState d)]) w.nextRef
      (ingestState (mkDevState d) m sid) =
      w.heap ++ [(w.nextRef, ingestState (mkDevState d) m sid)] :=
    aset_append_fresh _ _ _ _ hheapnone
  unfold processCore ensureDevice
  rw [hd]
  simp only [h1, h2]
  by_cases hsn : strTruthy (msgSender m) <;> simp [hsn, h3]

/-- Effect of `_process_incoming_message` on a known device id. -/
theorem processIncoming_known {w : World} {d : String} {r : Nat} {s : TextBeeDeviceState}
    (m : Msg) (sid : Option String) (now : Nat)
    (hd : alookup w.devices d = some r) (hs : alookup w.heap r = some s) :
    (processIncoming w d m sid now).devices = w.devices ∧
    (processIncoming w d m sid now).heap = aset w.heap r (ingestState s m sid) ∧
    (processIncoming w d m sid now).total_received = w.total_received + 1 ∧
    (processIncoming w d m sid now).total_sent = w.total_sent ∧
    (processIncoming w d m sid now).nextRef = w.nextRef ∧
    (processIncoming w d m sid now).timers = w.timers ++ [(now + 5, r)] := by
  unfold processIncoming
  rw [remap_of_known hd]
  exact processCore_known m sid now hd hs

/-- Every ingestion arms exactly one pulse-clear timer, 5 seconds out. -/
theorem processIncoming_timers {w : World} (d : String) (m : Msg) (sid : Option String)
    (now : Nat) (hWF : w.WF) :
    ∃ r, (processIncoming w d m sid now).timers = w.timers ++ [(now + 5, r)] := by
  unfold processIncoming
  cases hd : alookup w.devices (remapDeviceId w d) with
  | some r =>
      obtain ⟨s, hs⟩ := hWF.1 _ (alookup_mem hd)
      exact ⟨r, (processCore_known m sid now hd hs).2.2.2.2.2⟩
  | none =>
      exact ⟨w.nextRef, (processCore_fresh m sid now hd hWF.2).2.2.2.2.2⟩

/-- Firing the armed `_clear_pulse` callback clears the pulse flag on the
captured state object. -/
theorem fireTimer_clears {w : World} {r : Nat} {ds : TextBeeDeviceState}
    (hs : alookup w.heap r = some ds) :
    alookup (fireTimer w r).heap r = some { ds with new_message_pulse := false } := by
  unfold fireTimer
  rw [hs]
  simp [alookup_aset_self]

end TextBee

namespace TextBee

/-- The loop-local `new_devices` dict after one non-skipped iteration: the
device key is always (re)bound, whatever the fetch outcome. -/
theorem pollDevice_snd (fetch : String → Except String (List Msg)) (now : Nat)
    (w : World) (nd : List (String × Nat)) (dev : DeviceDescriptor)
    (h : devKey dev ≠ "") :
    (pollDevice fetch now (w, nd) dev).2 =
      aset nd (devKey dev) (resolvePollRef w nd (devKey dev)).2 := by
  unfold pollDevice
  simp only [if_neg h]
  cases hf : fetch (devKey dev) <;> simp [hf]

/-- C10: a polled device descriptor with none of the id keys is not
skipped: `str(None)` is the truthy string `"None"`, so a record keyed by
the literal string `"None"` is created (or updated) like any other
device. -/
theorem textbee_C10_none_device_key (w : World) (dev : DeviceDescriptor)
    (fetch : String → Except String (List Msg)) (now : Nat)
    (h1 : dev.id = none) (h2 : dev._id = none) (h3 : dev.deviceId = none) :
    ∃ w1, pollTick w (Except.ok [dev]) fetch now = (w1, none) ∧
      (alookup w1.devices "None").isSome := by
  have hkey : devKey dev = "None" := by
    simp [devKey, h1, h2, h3, orS, strTruthy, pyStr]
  have hne : devKey dev ≠ "" := by rw [hkey]; decide
  have hsnd := pollDevice_snd fetch now w w.devices dev hne
  rw [hkey] at hsnd
  refine ⟨{ (pollDevice fetch now (w, w.devices) dev).1 with
            devices := (pollDevice fetch now (w, w.devices) dev).2 }, rfl, ?_⟩
  simp only [hsnd]
  rw [alookup_aset_self]
  rfl

theorem textbee_C10_none_device_key_witness :
    ∃ w1, pollTick emptyWorld (Except.ok [({} : DeviceDescriptor)]) fetchEmpty 0 = (w1, none) ∧
      (alookup w1.devices "None").isSome :=
  textbee_C10_none_device_key emptyWorld {} fetchEmpty 0 rfl rfl rfl

end TextBee

namespace TextBee

/-- C4: a webhook event whose resolved device id is unknown is never lost:
with at least one device record it is attached to the deterministic
first-inserted device (no new record is created); with zero device records
exactly one new record is created under the received id. -/
theorem textbee_C4_webhook_unknown_device :
    (∀ (w : World) (p : Payload) (k0 : String) (r0 : Nat) (rest : List (String × Nat))
        (s0 : TextBeeDeviceState) (now : Nat),
        webhookDevId p ≠ "" →
        alookup w.devices (webhookDevId p) = none →
        w.devices = (k0, r0) :: rest →
        alookup w.heap r0 = some s0 →
        (handleIncomingWebhook w p now).devices = w.devices ∧
        alookup (handleIncomingWebhook w p now).heap r0 =
          some (ingestState s0 (webhookMsg p) (webhookSmsId p)) ∧
        (ingestState s0 (webhookMsg p) (webhookSmsId p)).received_count =
          s0.received_count + 1 ∧
        (ingestState s0 (webhookMsg p) (webhookSmsId p)).last_message = some (webhookMsg p) ∧
        (handleIncomingWebhook w p now).total_received = w.total_received + 1) ∧
    (∀ (w : World) (p : Payload) (now : Nat),
        webhookDevId p ≠ "" →
        w.devices = [] →
        (∀ q ∈ w.heap, q.1 < w.nextRef) →
        (handleIncomingWebhook w p now).devices = [(webhookDevId p, w.nextRef)] ∧
        alookup (handleIncomingWebhook w p now).heap w.nextRef =
          some (ingestState (mkDevState (webhookDevId p)) (webhookMsg p) (webhookSmsId p)) ∧
        (handleIncomingWebhook w p now).total_received = w.total_received + 1) := by
  constructor
  · intro w p k0 r0 rest s0 now hne hd hdev hs0
    have hk0 : alookup w.devices k0 = some r0 := by rw [hdev]; simp [alookup]
    have hwh : handleIncomingWebhook w p now =
        processCore w k0 (webhookMsg p) (webhookSmsId p) now := by
      unfold handleIncomingWebhook processIncoming
      rw [if_neg hne, remap_of_unknown hd hdev]
    obtain ⟨c1, c2, c3, _, _, _⟩ :=
      processCore_known (webhookMsg p) (webhookSmsId p) now hk0 hs0
    rw [hwh]
    refine ⟨c1, ?_, ?_, rfl, c3⟩
    · rw [c2, alookup_aset_self]
    · simp [ingestState]
  · intro w p now hne hdev hfresh
    have hd : alookup w.devices (webhookDevId p) = none := by rw [hdev]; rfl
    have hwh : handleIncomingWebhook w p now =
        processCore w (webhookDevId p) (webhookMsg p) (webhookSmsId p) now := by
      unfold handleIncomingWebhook processIncoming
      rw [if_neg hne, remap_of_empty hdev]
    obtain ⟨c1, c2, c3, _, _, _⟩ :=
      processCore_fresh (webhookMsg p) (webhookSmsId p) now hd hfresh
    rw [hwh]
    refine ⟨?_, ?_, c3⟩
    · rw [c1, hdev]; rfl
    · rw [c2]
      rw [alookup_append_of_none _ _ _ (alookup_eq_none fun q hq => Nat.ne_of_lt (hfresh q hq))]
      simp [alookup]

theorem textbee_C4_webhook_unknown_device_witness :
    (let w0 : World :=
      { heap := [(0, mkDevState "k0")], devices := [("k0", 0)], nextRef := 1 }
    let p : Payload := { deviceId := some "dX", data := some msgM1 }
    (handleIncomingWebhook w0 p 0).devices = w0.devices ∧
      alookup (handleIncomingWebhook w0 p 0).heap 0 =
        some (ingestState (mkDevState "k0") (webhookMsg p) (webhookSmsId p)) ∧
      (ingestState (mkDevState "k0") (webhookMsg p) (webhookSmsId p)).received_count =
        (mkDevState "k0").received_count + 1 ∧
      (ingestState (mkDevState "k0") (webhookMsg p) (webhookSmsId p)).last_message =
        some (webhookMsg p) ∧
      (handleIncomingWebhook w0 p 0).total_received = w0.total_received + 1) ∧
    ((handleIncomingWebhook emptyWorld payloadM1 0).devices = [("d1", 0)] ∧
      alookup (handleIncomingWebhook emptyWorld payloadM1 0).heap 0 =
        some (ingestState (mkDevState "d1") (webhookMsg payloadM1) (webhookSmsId payloadM1)) ∧
      (handleIncomingWebhook emptyWorld payloadM1 0).total_received =
        emptyWorld.total_received + 1) := by
  constructor
  · exact textbee_C4_webhook_unknown_device.1 _ _ "k0" 0 [] (mkDevState "k0") 0
      (by decide) rfl rfl rfl
  · exact textbee_C4_webhook_unknown_device.2 emptyWorld payloadM1 0 (by decide) rfl
      (fun q hq => by simp [emptyWorld] at hq)

end TextBee

namespace TextBee

/-- C9: every ingestion arms exactly one delayed pulse-clear callback with
the fixed 5-second delay and never cancels a pending one (the timer list
only grows by the single new entry); firing an armed timer clears
`new_message_pulse` on the captured state object; and when a second
message for the same device arrives within 5 seconds of the first, the
first timer — firing at `t0 + 5 < t1 + 5` — clears the pulse before 5
seconds have elapsed since the second arrival. -/
theorem textbee_C9_pulse_timer :
    (∀ (w : World) (d : String) (m : Msg) (sid : Option String) (now : Nat),
        w.WF →
        ∃ r, (processIncoming w d m sid now).timers = w.timers ++ [(now + 5, r)]) ∧
    (∀ (w : World) (r : Nat) (ds : TextBeeDeviceState),
        alookup w.heap r = some ds →
        alookup (fireTimer w r).heap r = some { ds with new_message_pulse := false }) ∧
    (∀ (w : World) (d : String) (r : Nat) (s : TextBeeDeviceState) (m1 m2 : Msg)
        (sid1 sid2 : Option String) (t0 t1 : Nat),
        alookup w.devices d = some r →
        alookup w.heap r = some s →
        t0 < t1 →
        t1 < t0 + 5 →
        (processIncoming (processIncoming w d m1 sid1 t0) d m2 sid2 t1).timers =
          w.timers ++ [(t0 + 5, r), (t1 + 5, r)] ∧
        t0 + 5 < t1 + 5 ∧
        ∃ s2,
          alookup
              (fireTimer (processIncoming (processIncoming w d m1 sid1 t0) d m2 sid2 t1) r).heap
              r = some s2 ∧
          s2.new_message_pulse = false) := by
  refine ⟨?_, ?_, ?_⟩
  · intro w d m sid now hWF
    exact processIncoming_timers d m sid now hWF
  · intro w r ds hs
    exact fireTimer_clears hs
  · intro w d r s m1 m2 sid1 sid2 t0 t1 hd hs ht01 _
    obtain ⟨a1, a2, _, _, _, a6⟩ := processIncoming_known m1 sid1 t0 hd hs
    have hd1 : alookup (processIncoming w d m1 sid1 t0).devices d = some r := by rw [a1]; exact hd
    have hs1 : alookup (processIncoming w d m1 sid1 t0).heap r =
        some (ingestState s m1 sid1) := by rw [a2]; exact alookup_aset_self _ _ _
    obtain ⟨b1, b2, _, _, _, b6⟩ := processIncoming_known m2 sid2 t1 hd1 hs1
    refine ⟨?_, by omega, ?_⟩
    · rw [b6, a6]
      simp
    · refine ⟨{ ingestState (ingestState s m1 sid1) m2 sid2 with new_message_pulse := false },
        ?_, rfl⟩
      have hs2 : alookup (processIncoming (processIncoming w d m1 sid1 t0) d m2 sid2 t1).heap r =
          some (ingestState (ingestState s m1 sid1) m2 sid2) := by
        rw [b2]; exact alookup_aset_self _ _ _
      exact fireTimer_clears hs2

theorem textbee_C9_pulse_timer_witness :
    (∃ r, (processIncoming c1World "d1" msgM1 (some "m1") 100).timers =
        c1World.timers ++ [(100 + 5, r)]) ∧
    (alookup (fireTimer c1World 0).heap 0).map TextBeeDeviceState.new_message_pulse =
      some false ∧
    ((processIncoming (processIncoming c1World "d1" msgM1 none 100) "d1" msgM1 none 103).timers =
        c1World.timers ++ [(100 + 5, 0), (103 + 5, 0)] ∧
      100 + 5 < 103 + 5 ∧
      ∃ s2,
        alookup
            (fireTimer (processIncoming (processIncoming c1World "d1" msgM1 none 100) "d1"
              msgM1 none 103) 0).heap 0 = some s2 ∧
        s2.new_message_pulse = false) := by
  refine ⟨?_, ?_, ?_⟩
  · refine textbee_C9_pulse_timer.1 c1World "d1" msgM1 (some "m1") 100 ⟨?_, ?_⟩
    · intro p hp
      fin_cases hp
      exact ⟨_, rfl⟩
    · intro q hq
      fin_cases hq
      decide
  · have := textbee_C9_pulse_timer.2.1 c1World 0 _ rfl
    rw [this]
    rfl
  · have := textbee_C9_pulse_timer.2.2 c1World "d1" 0 _ msgM1 msgM1 none none 100 103
      rfl rfl (by decide) (by decide)
    exact this

end TextBee

namespace TextBee

/-- C3: the auto-reply throttle.  (1) A second message from the same sender
inside the rolling window produces no reply and changes nothing.  (2) When
enabled with a non-blank template and the window has elapsed (or no reply
was ever sent) and the gateway send succeeds, exactly one reply is sent,
the last-sent timestamp is recorded, and the sent counters are incremented
via the same `record_sent_sms` bookkeeping used for manual sends.  (3) When
the gateway send fails, no reply is counted: the world is unchanged and no
timestamp is recorded. -/
theorem textbee_C3_autoreply_throttle :
    (∀ (ar : AutoReplyState) (w : World) (d s : String) (now : Nat) (ok : Bool) (t : Nat),
        arLookup ar d s = some t →
        now < t + autoReplyWindow →
        maybeAutoreply ar w d s now ok = (ar, w, false)) ∧
    (∀ (ar : AutoReplyState) (w : World) (d s : String) (now : Nat),
        (alookup ar.enabled d).getD false = true →
        pyStrip ((alookup ar.message d).getD "") ≠ "" →
        (∀ t, arLookup ar d s = some t → t + autoReplyWindow ≤ now) →
        maybeAutoreply ar w d s now true =
          ({ ar with last := aset ar.last d (aset ((alookup ar.last d).getD []) s now) },
            record_sent_sms w d [s] (some ((alookup ar.message d).getD "")), true) ∧
        arLookup (maybeAutoreply ar w d s now true).1 d s = some now) ∧
    (∀ (ar : AutoReplyState) (w : World) (d s : String) (now : Nat),
        (maybeAutoreply ar w d s now false).2.1 = w ∧
        (maybeAutoreply ar w d s now false).2.2 = false ∧
        arLookup (maybeAutoreply ar w d s now false).1 d s = arLookup ar d s) := by
  refine ⟨?_, ?_, ?_⟩
  · intro ar w d s now ok t hl hw
    simp only [arLookup, Option.bind_eq_some] at hl
    obtain ⟨per, hper, hts⟩ := hl
    by_cases he : (alookup ar.enabled d).getD false = false
    · simp [maybeAutoreply, he]
    · by_cases hm : pyStrip ((alookup ar.message d).getD "") = ""
      · simp [maybeAutoreply, he, hm]
      · have hgd : (alookup ar.last d).getD [] = per := by rw [hper]; rfl
        have har : aset ar.last d per = ar.last := aset_lookup_self _ _ _ hper
        have hdec : decide (now < t + autoReplyWindow) = true := decide_eq_true hw
        simp [maybeAutoreply, he, hm, hgd, hts, hdec, har]
  · intro ar w d s now he hm hgap
    have he' : ¬ ((alookup ar.enabled d).getD false = false) := by simp [he]
    have hblocked :
        (match alookup ((alookup ar.last d).getD []) s with
          | some lastT => decide (now < lastT + autoReplyWindow)
          | none => false) = false := by
      cases hs : alookup ((alookup ar.last d).getD []) s with
      | none => rfl
      | some t =>
          have ht : arLookup ar d s = some t := by
            cases hlast : alookup ar.last d with
            | none => rw [hlast] at hs; simp [alookup] at hs
            | some per =>
                rw [hlast] at hs
                simp only [Option.getD_some] at hs
                simp [arLookup, hlast, hs]
          exact decide_eq_false (by have := hgap t ht; omega)
    constructor
    · simp [maybeAutoreply, he', hm, hblocked, aset_aset]
    · simp [maybeAutoreply, he', hm, hblocked, aset_aset, arLookup, alookup_aset_self]
  · intro ar w d s now
    by_cases he : (alookup ar.enabled d).getD false = false
    · simp [maybeAutoreply, he]
    · by_cases hm : pyStrip ((alookup ar.message d).getD "") = ""
      · simp [maybeAutoreply, he, hm]
      · have hlk : arLookup { ar with last := aset ar.last d ((alookup ar.last d).getD []) } d s =
            arLookup ar d s := by
          simp only [arLookup, alookup_aset_self]
          cases hlast : alookup ar.last d with
          | none => simp [alookup]
          | some per => simp [hlast]
        cases hbl : (match alookup ((alookup ar.last d).getD []) s with
          | some lastT => decide (now < lastT + autoReplyWindow)
          | none => false) with
        | true => simp [maybeAutoreply, he, hm, hbl, hlk]
        | false => simp [maybeAutoreply, he, hm, hbl, hlk]

theorem textbee_C3_autoreply_throttle_witness :
    (maybeAutoreply
        { enabled := [("d1", true)], message := [("d1", "busy")], last := [("d1", [("+1", 50)])] }
        emptyWorld "d1" "+1" 100 true =
      ({ enabled := [("d1", true)], message := [("d1", "busy")], last := [("d1", [("+1", 50)])] },
        emptyWorld, false)) ∧
    (maybeAutoreply
        { enabled := [("d1", true)], message := [("d1", "busy")], last := [("d1", [("+1", 50)])] }
        emptyWorld "d1" "+1" 4000 true =
      ({ enabled := [("d1", true)], message := [("d1", "busy")], last := [("d1", [("+1", 4000)])] },
        record_sent_sms emptyWorld "d1" ["+1"] (some "busy"), true)) ∧
    ((maybeAutoreply
        { enabled := [("d1", true)], message := [("d1", "busy")], last := [] }
        emptyWorld "d1" "+1" 100 false).2.1 = emptyWorld) := by
  refine ⟨?_, ?_, ?_⟩
  · exact textbee_C3_autoreply_throttle.1
      { enabled := [("d1", true)], message := [("d1", "busy")], last := [("d1", [("+1", 50)])] }
      emptyWorld "d1" "+1" 100 true 50 rfl (by decide)
  · have := textbee_C3_autoreply_throttle.2.1
      { enabled := [("d1", true)], message := [("d1", "busy")], last := [("d1", [("+1", 50)])] }
      emptyWorld "d1" "+1" 4000 rfl (by decide)
      (fun t ht => by
        have ht' : (50 : Nat) = t := by
          have h5 : some (50 : Nat) = some t := by
            rw [← ht]
            rfl
          exact Option.some.inj h5
        rw [← ht']
        decide)
    exact this.1
  · exact (textbee_C3_autoreply_throttle.2.2
      { enabled := [("d1", true)], message := [("d1", "busy")], last := [] }
      emptyWorld "d1" "+1" 100).1

end TextBee

namespace TextBee

/-- Bookkeeping contract of `record_sent_sms`: `total_sent` rises by one and
the (possibly remapped, lazily created) target record's `sent_count` rises
by one. -/
theorem record_sent_sms_spec (w : World) (d : String) (rs : List String) (m : Option String)
    (hWF : w.WF) :
    (record_sent_sms w d rs m).total_sent = w.total_sent + 1 ∧
    (devRecord (record_sent_sms w d rs m) (remapDeviceId w d)).map
        TextBeeDeviceState.sent_count =
      some (((devRecord w (remapDeviceId w d)).map TextBeeDeviceState.sent_count).getD 0 + 1) := by
  cases hd : alookup w.devices (remapDeviceId w d) with
  | some r =>
      obtain ⟨s, hs0⟩ := hWF.1 _ (alookup_mem hd)
      have hs : alookup w.heap r = some s := hs0
      have hens : ensureDevice w (remapDeviceId w d) = w := by
        unfold ensureDevice; rw [hd]
      simp only [record_sent_sms, hens, hd, hs]
      refine ⟨trivial, ?_⟩
      simp [devRecord, hd, hs, alookup_aset_self]
  | none =>
      have h1 : alookup (w.devices ++ [(remapDeviceId w d, w.nextRef)]) (remapDeviceId w d) =
          some w.nextRef := by
        rw [alookup_append_of_none _ _ _ hd]; simp [alookup]
      have hheapnone : alookup w.heap w.nextRef = none :=
        alookup_eq_none fun q hq => Nat.ne_of_lt (hWF.2 q hq)
      have h2 : alookup (w.heap ++ [(w.nextRef, mkDevState (remapDeviceId w d))]) w.nextRef =
          some (mkDevState (remapDeviceId w d)) := by
        rw [alookup_append_of_none _ _ _ hheapnone]; simp [alookup]
      simp only [record_sent_sms, ensureDevice, hd, h1, h2]
      refine ⟨trivial, ?_⟩
      simp [devRecord, hd, h1, mkDevState, alookup_aset_self]

/-- C8: a manual `send_message` whose gateway call fails is not counted as
sent — the world (counters, last_outgoing fields, everything) is exactly
unchanged; a successful send is recorded through `record_sent_sms` and
increments `total_sent` and the target record's `sent_count` exactly
once. -/
theorem textbee_C8_manual_send :
    (∀ (w : World) (d : String) (rs : List String) (m : String),
        handleSendMessage w d rs m false = w) ∧
    (∀ (w : World) (d : String) (rs : List String) (m : String),
        w.WF →
        rs ≠ [] →
        handleSendMessage w d rs m true = record_sent_sms w d rs (some m) ∧
        (handleSendMessage w d rs m true).total_sent = w.total_sent + 1 ∧
        (devRecord (handleSendMessage w d rs m true) (remapDeviceId w d)).map
            TextBeeDeviceState.sent_count =
          some (((devRecord w (remapDeviceId w d)).map
            TextBeeDeviceState.sent_count).getD 0 + 1)) := by
  constructor
  · intro w d rs m
    by_cases h : rs = [] <;> simp [handleSendMessage, h]
  · intro w d rs m hWF hrs
    have heq : handleSendMessage w d rs m true = record_sent_sms w d rs (some m) := by
      simp [handleSendMessage, hrs]
    obtain ⟨h1, h2⟩ := record_sent_sms_spec w d rs (some m) hWF
    rw [heq]
    exact ⟨rfl, h1, h2⟩

theorem textbee_C8_manual_send_witness :
    handleSendMessage emptyWorld "d1" ["+1555"] "hello" false = emptyWorld ∧
    (handleSendMessage emptyWorld "d1" ["+1555"] "hello" true =
        record_sent_sms emptyWorld "d1" ["+1555"] (some "hello") ∧
      (handleSendMessage emptyWorld "d1" ["+1555"] "hello" true).total_sent =
        emptyWorld.total_sent + 1 ∧
      (devRecord (handleSendMessage emptyWorld "d1" ["+1555"] "hello" true)
          (remapDeviceId emptyWorld "d1")).map TextBeeDeviceState.sent_count =
        some (((devRecord emptyWorld (remapDeviceId emptyWorld "d1")).map
          TextBeeDeviceState.sent_count).getD 0 + 1)) := by
  constructor
  · exact textbee_C8_manual_send.1 emptyWorld "d1" ["+1555"] "hello"
  · exact textbee_C8_manual_send.2 emptyWorld "d1" ["+1555"] "hello"
      ⟨fun p hp => by simp [emptyWorld] at hp, fun q hq => by simp [emptyWorld] at hq⟩
      (by simp)

end TextBee

namespace TextBee

theorem eqExceptErr_refl (a : TextBeeDeviceState) : eqExceptErr a a := rfl

theorem eqExceptErr_of_eq {a b : TextBeeDeviceState} (h : a = b) : eqExceptErr a b := by
  rw [eqExceptErr, h]

/-- Overwriting `last_error` keeps a record related to the original. -/
theorem eqExceptErr_err (a : TextBeeDeviceState) (v : Option String) :
    eqExceptErr { a with last_error := v } a := rfl

/-- The merge never reads `last_error`. -/
theorem mergeDevice_lasterr (a : TextBeeDeviceState) (v : Option String)
    (dev : DeviceDescriptor) :
    mergeDevice { a with last_error := v } dev = mergeDevice a dev := rfl

theorem mergeDevice_congr {a b : TextBeeDeviceState} (h : eqExceptErr a b)
    (dev : DeviceDescriptor) : mergeDevice a dev = mergeDevice b dev := by
  calc mergeDevice a dev = mergeDevice { a with last_error := none } dev :=
        (mergeDevice_lasterr a none dev).symm
    _ = mergeDevice { b with last_error := none } dev := by rw [h]
    _ = mergeDevice b dev := mergeDevice_lasterr b none dev

/-- The ingestion update never reads `last_error`. -/
theorem ingestState_lasterr (a : TextBeeDeviceState) (v : Option String) (m : Msg)
    (sid : Option String) :
    ingestState { a with last_error := v } m sid = ingestState a m sid := rfl

theorem ingestState_congr {a b : TextBeeDeviceState} (h : eqExceptErr a b) (m : Msg)
    (sid : Option String) : ingestState a m sid = ingestState b m sid := by
  calc ingestState a m sid = ingestState { a with last_error := none } m sid :=
        (ingestState_lasterr a none m sid).symm
    _ = ingestState { b with last_error := none } m sid := by rw [h]
    _ = ingestState b m sid := ingestState_lasterr b none m sid

theorem lmi_congr {a b : TextBeeDeviceState} (h : eqExceptErr a b) :
    a.last_message_id = b.last_message_id := by
  have h' : ({ a with last_error := none } : TextBeeDeviceState) =
      { b with last_error := none } := h
  have h2 := congrArg TextBeeDeviceState.last_message_id h'
  simpa using h2

theorem cellRel_refl (r : Nat) (p : Nat × TextBeeDeviceState) : cellRel r p p :=
  ⟨rfl, fun _ => eqExceptErr_refl _, fun _ => rfl⟩

theorem heapRel_refl (r : Nat) (h : List (Nat × TextBeeDeviceState)) : heapRel r h h :=
  List.forall₂_same.mpr fun p _ => cellRel_refl r p

/-- Related heaps agree on every cell away from `r`. -/
theorem heapRel_lookup_ne {r : Nat} {h1 h2 : List (Nat × TextBeeDeviceState)}
    (hR : heapRel r h1 h2) {k : Nat} (hk : k ≠ r) : alookup h1 k = alookup h2 k := by
  induction hR with
  | nil => rfl
  | @cons p q t1 t2 hpq htail ih =>
      obtain ⟨pk, pv⟩ := p
      obtain ⟨qk, qv⟩ := q
      obtain ⟨hkey, _, hne⟩ := hpq
      simp only at hkey
      subst hkey
      by_cases hk1 : k = pk
      · have hpv : pv = qv := hne fun hpr => hk (by simpa [hk1] using hpr)
        simp [alookup, hk1, hpv]
      · simp [alookup, hk1, ih]

/-- Looking up `r` itself in related heaps gives related results. -/
theorem heapRel_lookup_r {r : Nat} {h1 h2 : List (Nat × TextBeeDeviceState)}
    (hR : heapRel r h1 h2) :
    (alookup h1 r = none ∧ alookup h2 r = none) ∨
      ∃ a b, alookup h1 r = some a ∧ alookup h2 r = some b ∧ eqExceptErr a b := by
  induction hR with
  | nil => exact Or.inl ⟨rfl, rfl⟩
  | @cons p q t1 t2 hpq htail ih =>
      obtain ⟨pk, pv⟩ := p
      obtain ⟨qk, qv⟩ := q
      obtain ⟨hkey, hr, _⟩ := hpq
      simp only at hkey
      subst hkey
      by_cases hk1 : r = pk
      · right
        refine ⟨pv, qv, by simp [alookup, hk1], by simp [alookup, hk1], ?_⟩
        exact hr (by simpa using hk1.symm)
      · simp only [alookup, hk1, if_false]
        exact ih

/-- Writing values that are related at `r` and equal elsewhere preserves the
heap relation. -/
theorem heapRel_aset {r : Nat} {h1 h2 : List (Nat × TextBeeDeviceState)}
    (hR : heapRel r h1 h2) (k : Nat) {v1 v2 : TextBeeDeviceState}
    (hv : eqExceptErr v1 v2) (hv2 : k ≠ r → v1 = v2) :
    heapRel r (aset h1 k v1) (aset h2 k v2) := by
  induction hR with
  | nil =>
      exact List.Forall₂.cons ⟨rfl, fun _ => hv, fun hkr => hv2 hkr⟩ List.Forall₂.nil
  | @cons p q t1 t2 hpq htail ih =>
      obtain ⟨pk, pv⟩ := p
      obtain ⟨qk, qv⟩ := q
      obtain ⟨hkey, hr, hne⟩ := hpq
      simp only at hkey
      subst hkey
      by_cases hk1 : k = pk
      · simp only [aset, if_pos hk1]
        exact List.Forall₂.cons ⟨rfl, fun _ => hv, fun hkr => hv2 hkr⟩ htail
      · simp only [aset, if_neg hk1]
        exact List.Forall₂.cons ⟨rfl, hr, hne⟩ ih

/-- Writing the same value on both sides preserves the heap relation. -/
theorem heapRel_aset_eq {r : Nat} {h1 h2 : List (Nat × TextBeeDeviceState)}
    (hR : heapRel r h1 h2) (k : Nat) (v : TextBeeDeviceState) :
    heapRel r (aset h1 k v) (aset h2 k v) :=
  heapRel_aset hR k (eqExceptErr_refl v) fun _ => rfl

/-- Appending the same fresh cell on both sides preserves the heap
relation. -/
theorem heapRel_append {r : Nat} {h1 h2 : List (Nat × TextBeeDeviceState)}
    (hR : heapRel r h1 h2) (c : Nat × TextBeeDeviceState) :
    heapRel r (h1 ++ [c]) (h2 ++ [c]) := by
  induction hR with
  | nil => exact List.Forall₂.cons (cellRel_refl r c) List.Forall₂.nil
  | cons hpq htail ih => exact List.Forall₂.cons hpq ih

end TextBee

namespace TextBee

theorem heapRel_lookup {r : Nat} {h1 h2 : List (Nat × TextBeeDeviceState)}
    (hR : heapRel r h1 h2) (k : Nat) :
    (alookup h1 k = none ∧ alookup h2 k = none) ∨
      ∃ a b, alookup h1 k = some a ∧ alookup h2 k = some b ∧ eqExceptErr a b := by
  induction hR with
  | nil => exact Or.inl ⟨rfl, rfl⟩
  | @cons p q t1 t2 hpq htail ih =>
      obtain ⟨pk, pv⟩ := p
      obtain ⟨qk, qv⟩ := q
      obtain ⟨hkey, hr, hne⟩ := hpq
      simp only at hkey
      subst hkey
      by_cases hk1 : k = pk
      · right
        refine ⟨pv, qv, by simp [alookup, hk1], by simp [alookup, hk1], ?_⟩
        by_cases hkr : pk = r
        · exact hr hkr
        · exact eqExceptErr_of_eq (hne hkr)
      · simp only [alookup, hk1, if_false]
        exact ih

theorem worldRel_rfl (r : Nat) (w : World) : WorldRel r w w :=
  ⟨rfl, rfl, rfl, rfl, rfl, rfl, heapRel_refl r w.heap⟩

theorem ensureDevice_rel {r : Nat} {w1 w2 : World} (h : WorldRel r w1 w2) (d : String) :
    WorldRel r (ensureDevice w1 d) (ensureDevice w2 d) := by
  unfold ensureDevice
  rw [h.devices, h.nextRef]
  cases hd : alookup w2.devices d with
  | some rr => exact h
  | none =>
      exact ⟨rfl, h.total_sent, h.total_received, rfl, h.timers, h.tasks,
        heapRel_append h.heap _⟩

theorem processCore_rel {r : Nat} {w1 w2 : World} (h : WorldRel r w1 w2) (d : String)
    (m : Msg) (sid : Option String) (now : Nat) :
    WorldRel r (processCore w1 d m sid now) (processCore w2 d m sid now) := by
  have he := ensureDevice_rel h d
  simp only [processCore]
  rw [he.devices]
  cases hd : alookup (ensureDevice w2 d).devices d with
  | none => exact he
  | some rr =>
      rcases heapRel_lookup he.heap rr with ⟨hn1, hn2⟩ | ⟨a, b, ha, hb, hab⟩
      · simp only [hn1, hn2]
        exact he
      · simp only [ha, hb]
        have hing : ingestState a m sid = ingestState b m sid := ingestState_congr hab m sid
        have hh : heapRel r (aset (ensureDevice w1 d).heap rr (ingestState a m sid))
            (aset (ensureDevice w2 d).heap rr (ingestState b m sid)) := by
          rw [hing]
          exact heapRel_aset_eq he.heap rr _
        cases hsn : strTruthy (msgSender m) with
        | true =>
            exact ⟨rfl, he.total_sent, congrArg (· + 1) he.total_received, he.nextRef,
              congrArg (· ++ [(now + 5, rr)]) he.timers,
              congrArg (· ++ [(d, ((msgSender m).getD ""))]) he.tasks, hh⟩
        | false =>
            exact ⟨rfl, he.total_sent, congrArg (· + 1) he.total_received, he.nextRef,
              congrArg (· ++ [(now + 5, rr)]) he.timers, he.tasks, hh⟩

theorem processIncoming_rel {r : Nat} {w1 w2 : World} (h : WorldRel r w1 w2) (d : String)
    (m : Msg) (sid : Option String) (now : Nat) :
    WorldRel r (processIncoming w1 d m sid now) (processIncoming w2 d m sid now) := by
  unfold processIncoming
  have hremap : remapDeviceId w1 d = remapDeviceId w2 d := by
    unfold remapDeviceId
    rw [h.devices]
  rw [hremap]
  exact processCore_rel h _ m sid now

end TextBee

namespace TextBee

theorem resolvePollRef_rel {r : Nat} {w1 w2 : World} (h : WorldRel r w1 w2)
    (nd : List (String × Nat)) (key : String) :
    WorldRel r (resolvePollRef w1 nd key).1 (resolvePollRef w2 nd key).1 ∧
    (resolvePollRef w1 nd key).2 = (resolvePollRef w2 nd key).2 := by
  unfold resolvePollRef
  cases hl : alookup nd key with
  | some rr => exact ⟨h, rfl⟩
  | none =>
      have hh : heapRel r (w1.heap ++ [(w1.nextRef, mkDevState key)])
          (w2.heap ++ [(w2.nextRef, mkDevState key)]) := by
        rw [h.nextRef]
        exact heapRel_append h.heap _
      exact ⟨⟨h.devices, h.total_sent, h.total_received, congrArg (· + 1) h.nextRef,
        h.timers, h.tasks, hh⟩, h.nextRef⟩

theorem pollDevice_rel {r : Nat} {w1 w2 : World} {nd : List (String × Nat)}
    (h : WorldRel r w1 w2) (fetch1 fetch2 : String → Except String (List Msg)) (now : Nat)
    (dev : DeviceDescriptor) (hf : fetch1 (devKey dev) = fetch2 (devKey dev)) :
    WorldRel r (pollDevice fetch1 now (w1, nd) dev).1 (pollDevice fetch2 now (w2, nd) dev).1 ∧
    (pollDevice fetch1 now (w1, nd) dev).2 = (pollDevice fetch2 now (w2, nd) dev).2 := by
  by_cases hk : devKey dev = ""
  · simp only [pollDevice, hk, if_pos rfl]
    exact ⟨h, rfl⟩
  · simp only [pollDevice, if_neg hk]
    obtain ⟨hrw, hrr⟩ := resolvePollRef_rel h nd (devKey dev)
    rw [hrr, hf]
    rcases heapRel_lookup hrw.heap (resolvePollRef w2 nd (devKey dev)).2 with
      ⟨hn1, hn2⟩ | ⟨a, b, ha, hb, hab⟩
    · simp only [hn1, hn2]
      have hrel1 : WorldRel r
          { (resolvePollRef w1 nd (devKey dev)).1 with
            heap := aset (resolvePollRef w1 nd (devKey dev)).1.heap
              (resolvePollRef w2 nd (devKey dev)).2 (mergeDevice (mkDevState (devKey dev)) dev) }
          { (resolvePollRef w2 nd (devKey dev)).1 with
            heap := aset (resolvePollRef w2 nd (devKey dev)).1.heap
              (resolvePollRef w2 nd (devKey dev)).2 (mergeDevice (mkDevState (devKey dev)) dev) } :=
        ⟨hrw.devices, hrw.total_sent, hrw.total_received, hrw.nextRef, hrw.timers, hrw.tasks,
          heapRel_aset_eq hrw.heap _ _⟩
      cases hfet : fetch2 (devKey dev) with
      | error e =>
          refine ⟨⟨hrel1.devices, hrel1.total_sent, hrel1.total_received, hrel1.nextRef,
            hrel1.timers, hrel1.tasks, heapRel_aset_eq hrel1.heap _ _⟩, rfl⟩
      | ok ms =>
          simp only []
          cases hlm : latestMsg ms with
          | none => exact ⟨hrel1, trivial⟩
          | some latest =>
              simp only []
              by_cases hdup : strTruthy (orS latest._id (orS latest.id latest.smsId)) = true ∧
                  orS latest._id (orS latest.id latest.smsId) ≠
                    (mergeDevice (mkDevState (devKey dev)) dev).last_message_id
              · rw [if_pos hdup, if_pos hdup]
                exact ⟨processIncoming_rel hrel1 _ _ _ now, trivial⟩
              · rw [if_neg hdup, if_neg hdup]
                refine ⟨⟨hrel1.devices, hrel1.total_sent, hrel1.total_received, hrel1.nextRef,
                  hrel1.timers, hrel1.tasks, heapRel_aset_eq hrel1.heap _ _⟩, trivial⟩
    · simp only [ha, hb]
      have hmg : mergeDevice a dev = mergeDevice b dev := mergeDevice_congr hab dev
      rw [hmg]
      have hrel1 : WorldRel r
          { (resolvePollRef w1 nd (devKey dev)).1 with
            heap := aset (resolvePollRef w1 nd (devKey dev)).1.heap
              (resolvePollRef w2 nd (devKey dev)).2 (mergeDevice b dev) }
          { (resolvePollRef w2 nd (devKey dev)).1 with
            heap := aset (resolvePollRef w2 nd (devKey dev)).1.heap
              (resolvePollRef w2 nd (devKey dev)).2 (mergeDevice b dev) } :=
        ⟨hrw.devices, hrw.total_sent, hrw.total_received, hrw.nextRef, hrw.timers, hrw.tasks,
          heapRel_aset_eq hrw.heap _ _⟩
      cases hfet : fetch2 (devKey dev) with
      | error e =>
          refine ⟨⟨hrel1.devices, hrel1.total_sent, hrel1.total_received, hrel1.nextRef,
            hrel1.timers, hrel1.tasks, heapRel_aset_eq hrel1.heap _ _⟩, rfl⟩
      | ok ms =>
          simp only []
          cases hlm : latestMsg ms with
          | none => exact ⟨hrel1, trivial⟩
          | some latest =>
              simp only []
              by_cases hdup : strTruthy (orS latest._id (orS latest.id latest.smsId)) = true ∧
                  orS latest._id (orS latest.id latest.smsId) ≠
                    (mergeDevice b dev).last_message_id
              · rw [if_pos hdup, if_pos hdup]
                exact ⟨processIncoming_rel hrel1 _ _ _ now, trivial⟩
              · rw [if_neg hdup, if_neg hdup]
                refine ⟨⟨hrel1.devices, hrel1.total_sent, hrel1.total_received, hrel1.nextRef,
                  hrel1.timers, hrel1.tasks, heapRel_aset_eq hrel1.heap _ _⟩, trivial⟩

end TextBee

namespace TextBee

/-- `pollDevice` only consults the fetch function at its own device key. -/
theorem pollDevice_congr (fetch1 fetch2 : String → Except String (List Msg)) (now : Nat)
    (acc : World × List (String × Nat)) (dev : DeviceDescriptor)
    (hf : fetch1 (devKey dev) = fetch2 (devKey dev)) :
    pollDevice fetch1 now acc dev = pollDevice fetch2 now acc dev := by
  simp only [pollDevice]
  rw [hf]

theorem foldl_pollDevice_congr (fetch1 fetch2 : String → Except String (List Msg)) (now : Nat)
    (l : List DeviceDescriptor) (acc : World × List (String × Nat))
    (hf : ∀ dev ∈ l, fetch1 (devKey dev) = fetch2 (devKey dev)) :
    List.foldl (pollDevice fetch1 now) acc l = List.foldl (pollDevice fetch2 now) acc l := by
  induction l generalizing acc with
  | nil => rfl
  | cons dev rest ih =>
      simp only [List.foldl_cons]
      rw [pollDevice_congr fetch1 fetch2 now acc dev (hf dev (List.mem_cons_self _ _))]
      exact ih _ fun x hx => hf x (List.mem_cons_of_mem _ hx)

theorem foldl_pollDevice_rel {r : Nat} (fetch1 fetch2 : String → Except String (List Msg))
    (now : Nat) (l : List DeviceDescriptor)
    (hf : ∀ dev ∈ l, fetch1 (devKey dev) = fetch2 (devKey dev))
    {w1 w2 : World} {nd : List (String × Nat)} (h : WorldRel r w1 w2) :
    WorldRel r (List.foldl (pollDevice fetch1 now) (w1, nd) l).1
        (List.foldl (pollDevice fetch2 now) (w2, nd) l).1 ∧
      (List.foldl (pollDevice fetch1 now) (w1, nd) l).2 =
        (List.foldl (pollDevice fetch2 now) (w2, nd) l).2 := by
  induction l generalizing w1 w2 nd with
  | nil => exact ⟨h, rfl⟩
  | cons dev rest ih =>
      simp only [List.foldl_cons]
      obtain ⟨hw, hnd⟩ := pollDevice_rel h fetch1 fetch2 now dev (hf dev (List.mem_cons_self _ _))
      have hstep1 : pollDevice fetch1 now (w1, nd) dev =
          ((pollDevice fetch1 now (w1, nd) dev).1, (pollDevice fetch1 now (w1, nd) dev).2) := rfl
      have hstep2 : pollDevice fetch2 now (w2, nd) dev =
          ((pollDevice fetch2 now (w2, nd) dev).1, (pollDevice fetch2 now (w2, nd) dev).2) := rfl
      rw [hstep1, hstep2, hnd]
      exact ih (fun x hx => hf x (List.mem_cons_of_mem _ hx)) hw

/-- A non-matching key in the loop-local dict is untouched by an
iteration. -/
theorem pollDevice_snd_preserve (fetch : String → Except String (List Msg)) (now : Nat)
    (w : World) (nd : List (String × Nat)) (dev : DeviceDescriptor) (k : String)
    (hk : devKey dev ≠ k) :
    alookup (pollDevice fetch now (w, nd) dev).2 k = alookup nd k := by
  by_cases h : devKey dev = ""
  · simp [pollDevice, h]
  · rw [pollDevice_snd fetch now w nd dev h]
    exact alookup_aset_ne _ _ _ _ fun hh => hk hh.symm

theorem foldl_snd_preserve (fetch : String → Except String (List Msg)) (now : Nat)
    (l : List DeviceDescriptor) (k : String) (hk : ∀ dev ∈ l, devKey dev ≠ k)
    (acc : World × List (String × Nat)) :
    alookup (List.foldl (pollDevice fetch now) acc l).2 k = alookup acc.2 k := by
  induction l generalizing acc with
  | nil => rfl
  | cons dev rest ih =>
      simp only [List.foldl_cons]
      rw [ih (fun x hx => hk x (List.mem_cons_of_mem _ hx))]
      obtain ⟨w, nd⟩ := acc
      exact pollDevice_snd_preserve fetch now w nd dev k (hk dev (List.mem_cons_self _ _))

end TextBee

namespace TextBee

/-- The iteration of the failing device: against the same start state, the
failing run and the run where that device's fetch succeeds with no
messages produce worlds that differ at most in the `last_error` stored at
the device's own heap cell, and bind the key identically. -/
theorem pollDevice_fail_step (f f2 : String → Except String (List Msg)) (now : Nat)
    (acc : World × List (String × Nat)) (dev : DeviceDescriptor) (e : String)
    (hkey : devKey dev ≠ "")
    (hf : f (devKey dev) = Except.error e)
    (hf2 : f2 (devKey dev) = Except.ok []) :
    WorldRel (resolvePollRef acc.1 acc.2 (devKey dev)).2
        (pollDevice f now acc dev).1 (pollDevice f2 now acc dev).1 ∧
    (pollDevice f now acc dev).2 =
        aset acc.2 (devKey dev) (resolvePollRef acc.1 acc.2 (devKey dev)).2 ∧
    (pollDevice f2 now acc dev).2 =
        aset acc.2 (devKey dev) (resolvePollRef acc.1 acc.2 (devKey dev)).2 := by
  have hsnd1 : (pollDevice f now acc dev).2 =
      aset acc.2 (devKey dev) (resolvePollRef acc.1 acc.2 (devKey dev)).2 :=
    pollDevice_snd f now acc.1 acc.2 dev hkey
  have hsnd2 : (pollDevice f2 now acc dev).2 =
      aset acc.2 (devKey dev) (resolvePollRef acc.1 acc.2 (devKey dev)).2 :=
    pollDevice_snd f2 now acc.1 acc.2 dev hkey
  refine ⟨?_, hsnd1, hsnd2⟩
  simp only [pollDevice, if_neg hkey, hf, hf2, latestMsg]
  refine ⟨rfl, rfl, rfl, rfl, rfl, rfl, ?_⟩
  simp only [aset_aset]
  exact heapRel_aset (heapRel_refl _ _) _ (eqExceptErr_err _ _) fun hne => absurd rfl hne

/-- C6: partial-failure isolation of the poll cycle.  When the
received-messages fetch fails for exactly the device `dF` (every other
polled device succeeding), the run is compared with the identical run in
which `dF`'s fetch succeeds with no messages: both runs produce the same
device table, the same account counters and timers, and heaps that agree
on every cell except `dF`'s own record, which differs at most in
`last_error`.  The other devices are thus updated exactly as in the
failure-free run and contribute identically to `total_received`. -/
theorem textbee_C6_partial_failure_isolation
    (w : World) (devs : List DeviceDescriptor) (f f' : String → Except String (List Msg))
    (dF : String) (e : String) (now : Nat)
    (hnodup : (devs.map devKey).Nodup)
    (hmem : dF ∈ devs.map devKey)
    (hne : dF ≠ "")
    (herr : f dF = Except.error e)
    (hsucc : ∀ k ∈ devs.map devKey, k ≠ dF → ∃ ms, f k = Except.ok ms)
    (hagree : ∀ k, k ≠ dF → f' k = f k)
    (hok : f' dF = Except.ok []) :
    ∃ w1 w2 rF,
      asyncUpdateData w (Except.ok devs) f now = Except.ok w1 ∧
      asyncUpdateData w (Except.ok devs) f' now = Except.ok w2 ∧
      alookup w1.devices dF = some rF ∧
      w1.devices = w2.devices ∧
      w1.total_received = w2.total_received ∧
      w1.total_sent = w2.total_sent ∧
      w1.timers = w2.timers ∧
      (∀ k, k ≠ rF → alookup w1.heap k = alookup w2.heap k) ∧
      (∀ a, alookup w1.heap rF = some a →
        ∃ b, alookup w2.heap rF = some b ∧ eqExceptErr a b) := by
  obtain ⟨devF, hdevFmem, hkeyF⟩ := List.mem_map.mp hmem
  obtain ⟨pre, post, rfl⟩ := List.append_of_mem hdevFmem
  rw [List.map_append, List.map_cons, List.nodup_append] at hnodup
  obtain ⟨hnpre, hncons, hdisj⟩ := hnodup
  have hpre : ∀ x ∈ pre, devKey x ≠ dF := by
    intro x hx hEq
    exact hdisj (List.mem_map_of_mem devKey hx)
      (by rw [hEq, ← hkeyF]; exact List.mem_cons_self _ _)
  have hpostkey : ∀ x ∈ post, devKey x ≠ dF := by
    intro x hx hEq
    have hnm := (List.nodup_cons.mp hncons).1
    exact hnm (by rw [hkeyF, ← hEq]; exact List.mem_map_of_mem devKey hx)
  have hkeyFne : devKey devF ≠ "" := by rw [hkeyF]; exact hne
  -- phase 1: identical prefixes
  have hphase1 : List.foldl (pollDevice f' now) (w, w.devices) pre =
      List.foldl (pollDevice f now) (w, w.devices) pre :=
    foldl_pollDevice_congr f' f now pre _ fun x hx => hagree (devKey x) (hpre x hx)
  set acc := List.foldl (pollDevice f now) (w, w.devices) pre with haccdef
  -- phase 2: the failing iteration
  obtain ⟨hrelS, hsnd1, hsnd2⟩ := pollDevice_fail_step f f' now acc devF e hkeyFne
    (by rw [hkeyF]; exact herr) (by rw [hkeyF]; exact hok)
  set R := (resolvePollRef acc.1 acc.2 (devKey devF)).2 with hRdef
  have hs1eq : pollDevice f now acc devF =
      ((pollDevice f now acc devF).1, aset acc.2 (devKey devF) R) := by
    rw [← hsnd1]
  have hs2eq : pollDevice f' now acc devF =
      ((pollDevice f' now acc devF).1, aset acc.2 (devKey devF) R) := by
    rw [← hsnd2]
  -- phase 3: the remaining devices preserve the relation
  have hfpost : ∀ x ∈ post, f (devKey x) = f' (devKey x) :=
    fun x hx => (hagree (devKey x) (hpostkey x hx)).symm
  obtain ⟨hrelFin, hndFin⟩ := @foldl_pollDevice_rel R f f' now post hfpost
    (pollDevice f now acc devF).1 (pollDevice f' now acc devF).1
    (aset acc.2 (devKey devF) R) hrelS
  have hbind : alookup (List.foldl (pollDevice f now)
      ((pollDevice f now acc devF).1, aset acc.2 (devKey devF) R) post).2 dF = some R := by
    rw [foldl_snd_preserve f now post dF hpostkey]
    rw [← hkeyF]
    exact alookup_aset_self _ _ _
  -- assemble
  have hfold1 : List.foldl (pollDevice f now) (w, w.devices) (pre ++ devF :: post) =
      List.foldl (pollDevice f now)
        ((pollDevice f now acc devF).1, aset acc.2 (devKey devF) R) post := by
    rw [List.foldl_append, List.foldl_cons, ← haccdef, ← hs1eq]
  have hfold2 : List.foldl (pollDevice f' now) (w, w.devices) (pre ++ devF :: post) =
      List.foldl (pollDevice f' now)
        ((pollDevice f' now acc devF).1, aset acc.2 (devKey devF) R) post := by
    rw [List.foldl_append, List.foldl_cons, hphase1, ← hs2eq]
  set G1 := List.foldl (pollDevice f now)
    ((pollDevice f now acc devF).1, aset acc.2 (devKey devF) R) post with hG1
  set G2 := List.foldl (pollDevice f' now)
    ((pollDevice f' now acc devF).1, aset acc.2 (devKey devF) R) post with hG2
  refine ⟨{ G1.1 with devices := G1.2 }, { G2.1 with devices := G2.2 }, R,
    ?_, ?_, ?_, ?_, ?_, ?_, ?_, ?_, ?_⟩
  · simp only [asyncUpdateData]
    rw [hfold1]
  · simp only [asyncUpdateData]
    rw [hfold2]
  · exact hbind
  · exact hndFin
  · exact hrelFin.total_received
  · exact hrelFin.total_sent
  · exact hrelFin.timers
  · intro k hk
    exact heapRel_lookup_ne hrelFin.heap hk
  · intro a ha
    rcases heapRel_lookup hrelFin.heap R with ⟨hn1, _⟩ | ⟨a', b', ha', hb', hab⟩
    · rw [ha] at hn1
      exact absurd hn1 (by simp)
    · rw [ha] at ha'
      obtain rfl := Option.some.inj ha'
      exact ⟨b', hb', hab⟩


theorem textbee_C6_partial_failure_isolation_witness :
    ∃ w1 w2 rF,
      asyncUpdateData emptyWorld (Except.ok [devA, devB]) c6FetchFail 0 = Except.ok w1 ∧
      asyncUpdateData emptyWorld (Except.ok [devA, devB]) c6FetchOk 0 = Except.ok w2 ∧
      alookup w1.devices "a" = some rF ∧
      w1.devices = w2.devices ∧
      w1.total_received = w2.total_received ∧
      w1.total_sent = w2.total_sent ∧
      w1.timers = w2.timers ∧
      (∀ k, k ≠ rF → alookup w1.heap k = alookup w2.heap k) ∧
      (∀ a, alookup w1.heap rF = some a →
        ∃ b, alookup w2.heap rF = some b ∧ eqExceptErr a b) :=
  textbee_C6_partial_failure_isolation emptyWorld [devA, devB] c6FetchFail c6FetchOk "a" "boom" 0
    (by decide) (by decide) (by decide) rfl
    (fun k _ hkne => ⟨[], by simp [c6FetchFail, hkne]⟩)
    (fun k hk => by simp [c6FetchOk, c6FetchFail, hk]) rfl

end TextBee
